import Mathlib

/-!
Shallow embedding of McKathlin_DayNight.js (Day-Night Cycle plugin for
RPG Maker MV), together with theorems checking the specification's claims
against it.

Modelling conventions:
* JavaScript numbers holding whole minute counts are modelled as `Int`.
  JavaScript `%` is truncated remainder (`Int.tmod`); `Math.floor(x / y)`
  for an integer-valued quotient context is flooring division (`Int.fdiv`).
* Plugin-parameter values read by the core (the `McKathlin.DayNight.Param`
  object and the switch/variable IDs) are gathered in a `Param` record
  whose fields are named after the properties the core functions read.
  The text-to-value loading of these parameters at startup is external
  glue per the plugin architecture.
* A JavaScript value that may be `undefined`/`null` is an `Option`.
* Thrown exceptions are `Except.error` carrying the message string.
-/

namespace McKathlin

namespace DayNight

def MINUTES_PER_HOUR : Int := 60

def HOURS_PER_DAY : Int := 24

def MINUTES_PER_DAY : Int := MINUTES_PER_HOUR * HOURS_PER_DAY

end DayNight

/-- JavaScript `%` on integer values: truncated remainder. -/
def jsMod (a b : Int) : Int := Int.tmod a b

/-- JavaScript `Math.floor(a / b)` on integer values with `b ≠ 0`:
flooring division. -/
def jsFloorDiv (a b : Int) : Int := Int.fdiv a b

/-- A screen tone `[r, g, b, gray]` as produced by `parseTone`. -/
abbrev Tone := List Int

/-- JavaScript array indexing `arr[i]` with a possibly out-of-range or
negative index: `undefined` becomes `none`. -/
def jsArrayGet (l : List Tone) (i : Int) : Option Tone :=
  if 0 ≤ i then l.get? i.toNat else none

/-- `McKathlin.TimeSpan`: a timestamp/duration held as a total count of
minutes (`this.totalMinutes`). -/
structure TimeSpan where
  totalMinutes : Int
deriving DecidableEq, Repr

namespace TimeSpan

/-- `McKathlin.TimeSpan.prototype.initialize(days, hours, minutes)`. -/
def init (days hours minutes : Int) : TimeSpan :=
  ⟨days * DayNight.MINUTES_PER_DAY + hours * DayNight.MINUTES_PER_HOUR + minutes⟩

/-- `getMinutes()`: `totalMinutes % MINUTES_PER_HOUR`. -/
def getMinutes (t : TimeSpan) : Int := jsMod t.totalMinutes DayNight.MINUTES_PER_HOUR

/-- `getHours()`: `Math.floor(totalMinutes / MINUTES_PER_HOUR) % HOURS_PER_DAY`. -/
def getHours (t : TimeSpan) : Int :=
  jsMod (jsFloorDiv t.totalMinutes DayNight.MINUTES_PER_HOUR) DayNight.HOURS_PER_DAY

/-- `getDays()`: `Math.floor(totalMinutes / MINUTES_PER_DAY)`. -/
def getDays (t : TimeSpan) : Int := jsFloorDiv t.totalMinutes DayNight.MINUTES_PER_DAY

/-- `getTotalHours()`: `Math.floor(totalMinutes / MINUTES_PER_HOUR)`. -/
def getTotalHours (t : TimeSpan) : Int := jsFloorDiv t.totalMinutes DayNight.MINUTES_PER_HOUR

/-- `getTotalMinutes()`. -/
def getTotalMinutes (t : TimeSpan) : Int := t.totalMinutes

/-- `getMinutesOfDay()`: `totalMinutes % MINUTES_PER_DAY`. -/
def getMinutesOfDay (t : TimeSpan) : Int := jsMod t.totalMinutes DayNight.MINUTES_PER_DAY

/-- `setForwardTo(timeOfDay)`: advance to the next occurrence of the
target time of day (functional rendering of the in-place mutation of
`this.totalMinutes`). -/
def setForwardTo (t timeOfDay : TimeSpan) : TimeSpan :=
  let theirMinutesToday := timeOfDay.getMinutesOfDay
  let myMinutesToday := t.getMinutesOfDay
  let difference := theirMinutesToday - myMinutesToday
  let difference :=
    if difference < 0 then difference + DayNight.MINUTES_PER_DAY else difference
  ⟨t.totalMinutes + difference⟩

/-- `addMinutes(minutes)` (functional rendering). -/
def addMinutes (t : TimeSpan) (minutes : Int) : TimeSpan :=
  ⟨t.totalMinutes + minutes⟩

end TimeSpan

namespace DayNight

/-- Numeric value of a list of decimal digit characters. -/
def digitsToNat (ds : List Char) : Nat :=
  ds.foldl (fun acc c => acc * 10 + (c.toNat - 48)) 0

/-- Attempt to match the core `(\d{1,2}):(\d{2})` of the time-of-day
regex `/(\d{1,2}):(\d{2}) ?(?:([ap])m?)?/i` at the head of the character
list. The quantifier `\d{1,2}` is greedy, so the two-digit hour form is
tried first and the engine backtracks to the one-digit form. Returns the
hour value, the minute value and the remaining characters. -/
def timeCoreAt : List Char → Option (Nat × Nat × List Char)
  | a :: b :: c :: d :: e :: rest =>
    if a.isDigit && b.isDigit && c = ':' && d.isDigit && e.isDigit then
      some (digitsToNat [a, b], digitsToNat [d, e], rest)
    else if a.isDigit && b = ':' && c.isDigit && d.isDigit then
      some (digitsToNat [a], digitsToNat [c, d], e :: rest)
    else none
  | [a, b, c, d] =>
    if a.isDigit && b = ':' && c.isDigit && d.isDigit then
      some (digitsToNat [a], digitsToNat [c, d], [])
    else none
  | _ => none

/-- A character matched by `[ap]` with the `i` flag. -/
def isMeridiemChar (c : Char) : Bool :=
  c = 'a' || c = 'A' || c = 'p' || c = 'P'

/-- The optional suffix ` ?(?:([ap])m?)?` of the time-of-day regex:
the captured meridiem letter, if the optional group matches right after
the core. The trailing `m?` consumes nothing that affects the capture. -/
def markerAt : List Char → Option Char
  | [] => none
  | c :: rest =>
    if isMeridiemChar c then some c
    else if c = ' ' then
      match rest with
      | d :: _ => if isMeridiemChar d then some d else none
      | [] => none
    else none

/-- `String.prototype.match` semantics for the time-of-day regex: scan
start positions left to right, returning the first successful match's
captures (hour value, minute value, optional meridiem letter). -/
def findTimeMatch : List Char → Option (Nat × Nat × Option Char)
  | [] => none
  | c :: rest =>
    match timeCoreAt (c :: rest) with
    | some (h, m, after) => some (h, m, markerAt after)
    | none => findTimeMatch rest

/-- The AM/PM adjustment block of `parseTimeOfDay` (the `if (match[3])`
branch): `P` adds 12 except to hour 12; otherwise hour 12 becomes 0. -/
def applyMeridiem (hours : Int) (marker : Option Char) : Int :=
  match marker with
  | none => hours
  | some c =>
    if c.toUpper = 'P' then
      if hours ≠ 12 then hours + 12 else hours
    else
      if hours = 12 then 0 else hours

/-- `McKathlin.DayNight.parseTimeOfDay(timeString)`. Throws on no match,
else builds `new McKathlin.TimeSpan(0, hours, minutes)` after the AM/PM
adjustment. -/
def parseTimeOfDay (timeString : String) : Except String TimeSpan :=
  match findTimeMatch timeString.data with
  | none => .error ("Invalid time-of-day string: " ++ timeString)
  | some (h, m, marker) =>
    .ok (TimeSpan.init 0 (applyMeridiem (Int.ofNat h) marker) (Int.ofNat m))

/-- The input contains a substring matching the `(\d{1,2}):(\d{2})` core
of the time-of-day regex (the optional meridiem suffix never affects
whether a match exists). -/
def hasTimeOfDayPattern (s : String) : Prop :=
  ∃ i, (timeCoreAt (s.data.drop i)).isSome = true

/-- A character matched by the separator class `[, ]`. -/
def isSepChar (c : Char) : Bool := c = ',' || c = ' '

/-- Match `\d+` at the head: one or more digits, greedily. -/
def unsignedIntAt (cs : List Char) : Option (Nat × List Char) :=
  let p := cs.span Char.isDigit
  if p.1.isEmpty then none else some (digitsToNat p.1, p.2)

/-- Match `-?\d+` at the head. If a `-` is present but not followed by a
digit, the engine backtracks to the signless alternative, which then also
fails on the `-`; so the whole token fails, as here. -/
def signedIntAt : List Char → Option (Int × List Char)
  | '-' :: rest =>
    match unsignedIntAt rest with
    | some (v, r) => some (-(v : Int), r)
    | none => none
  | cs =>
    match unsignedIntAt cs with
    | some (v, r) => some ((v : Int), r)
    | none => none

/-- Match `[, ]+` at the head: one or more separator characters. -/
def sepAt (cs : List Char) : Option (List Char) :=
  let p := cs.span isSepChar
  if p.1.isEmpty then none else some p.2

/-- Attempt to match the tone regex
`/(-?\d+)[, ]+(-?\d+)[, ]+(-?\d+)[, ]+(\d+)/` starting exactly at the
head of the character list. The digit class, the sign and the separator
class are pairwise disjoint at every decision point, so greedy matching
with no backtracking is complete for this pattern: shortening a `\d+`
leaves a digit where `[, ]+` must match, and shortening a `[, ]+` leaves
a separator where `-?\d+` must start. -/
def toneCoreAt (cs : List Char) : Option (Int × Int × Int × Int) :=
  match signedIntAt cs with
  | none => none
  | some (r, cs1) =>
    match sepAt cs1 with
    | none => none
    | some cs2 =>
      match signedIntAt cs2 with
      | none => none
      | some (g, cs3) =>
        match sepAt cs3 with
        | none => none
        | some cs4 =>
          match signedIntAt cs4 with
          | none => none
          | some (b, cs5) =>
            match sepAt cs5 with
            | none => none
            | some cs6 =>
              match unsignedIntAt cs6 with
              | none => none
              | some (gray, _) => some (r, g, b, (gray : Int))

/-- `String.prototype.match` semantics for the tone regex: scan start
positions left to right, return the first successful match's captures. -/
def findToneMatch : List Char → Option (Int × Int × Int × Int)
  | [] => none
  | c :: rest =>
    match toneCoreAt (c :: rest) with
    | some x => some x
    | none => findToneMatch rest

/-- `McKathlin.DayNight.parseTone(toneString)`. Throws on no match, else
returns `[r, g, b, gray]`. (`Number.parseInt(...) || 0` is the identity
on the captured values: a captured token is a nonempty digit string with
optional sign, so `parseInt` never yields `NaN`, and `0 || 0` is `0`.) -/
def parseTone (toneString : String) : Except String Tone :=
  match findToneMatch toneString.data with
  | none => .error ("Tone parse error: " ++ toneString)
  | some (r, g, b, gray) => .ok [r, g, b, gray]

/-- The input contains a substring matching the four-integer tone
pattern. -/
def hasTonePattern (s : String) : Prop :=
  ∃ i, (toneCoreAt (s.data.drop i)).isSome = true

end DayNight

/-- One simple-lighting preset as read by `getToneByKeyword`
(`preset.tone`). -/
structure LightingPreset where
  tone : Tone
deriving DecidableEq, Repr

/-- The plugin-parameter values as read by the core
(`McKathlin.DayNight.Param.…` and the reserved switch IDs checked by the
`Game_Switches` protection). Loading these values from the raw parameter
text at startup is external configuration glue; the fields are named
after the properties the core functions read.

Modelled from the spec: `McKathlin.DayNight.DEFAULT_TONE`, the fallback
tone returned by `getToneByKeyword`, is referenced but not assigned in
this snapshot of the plugin; the spec describes it as the configured
default tone, modelled here as the field `defaultTone`. -/
structure Param where
  dawnStartTimeAsMinutes : Int
  dawnEndTimeAsMinutes : Int
  duskStartTimeAsMinutes : Int
  duskEndTimeAsMinutes : Int
  dayStartTimeAsMinutes : Int
  nightStartTimeAsMinutes : Int
  newGameStartTimeAsMinutes : Int
  minutesPerTonePhase : Int
  dawnTonePhases : List Tone
  duskTonePhases : List Tone
  daylightTone : Tone
  nightTone : Tone
  defaultTone : Tone
  outdoorLightingKeyword : String
  simpleLightingPresets : String → Option LightingPreset
  daytimeSwitchID : Int
  nightSwitchID : Int
  daysPassedVariable : Int
  currentHourVariable : Int
  currentMinuteVariable : Int

/-- `McKathlin.TimeSpan.prototype.isDaytime()`: the minute of day lies in
`[DayStartTimeAsMinutes, NightStartTimeAsMinutes)`. -/
def TimeSpan.isDaytime (param : Param) (t : TimeSpan) : Bool :=
  param.dayStartTimeAsMinutes ≤ t.getMinutesOfDay &&
    t.getMinutesOfDay < param.nightStartTimeAsMinutes

/-- `String.prototype.toLowerCase()` on the keyword alphabet used here. -/
def jsToLowerCase (s : String) : String :=
  String.mk (s.data.map Char.toLower)

namespace DayNightCycle

/-- `McKathlin.DayNightCycle.getOutsideTone()`, as a function of the
current instant. A phase-array access with an out-of-range index yields
JavaScript `undefined`, hence the `Option` result. -/
def getOutsideTone (param : Param) (t : TimeSpan) : Option Tone :=
  let time := t.getMinutesOfDay
  if time < param.dawnStartTimeAsMinutes then
    some param.nightTone
  else if time < param.dawnEndTimeAsMinutes then
    jsArrayGet param.dawnTonePhases
      (jsFloorDiv (time - param.dawnStartTimeAsMinutes) param.minutesPerTonePhase)
  else if time < param.duskStartTimeAsMinutes then
    some param.daylightTone
  else if time < param.duskEndTimeAsMinutes then
    jsArrayGet param.duskTonePhases
      (jsFloorDiv (time - param.duskStartTimeAsMinutes) param.minutesPerTonePhase)
  else
    some param.nightTone

/-- `McKathlin.DayNightCycle.getToneByKeyword(keyword)`. An empty keyword
is falsy, so the lookup is skipped; a missing preset leaves `tone` null;
`if (!tone) tone = McKathlin.DayNight.DEFAULT_TONE` finally substitutes
the default tone for any null/undefined result. -/
def getToneByKeyword (param : Param) (t : TimeSpan) (keyword : String) : Tone :=
  let tone : Option Tone :=
    if keyword ≠ "" then
      let k := jsToLowerCase keyword
      if k = param.outdoorLightingKeyword then
        getOutsideTone param t
      else
        match param.simpleLightingPresets k with
        | some preset => some preset.tone
        | none => none
    else none
  tone.getD param.defaultTone

end DayNightCycle

/-- The externally owned game state touched by the clock controller:
`$gameSwitches`, `$gameVariables`, `$gameSystem.totalMinutes`, plus the
two guard-flag properties. `dayNightSwitching` is
`McKathlin.DayNight._switching`, the flag consulted by the switch
protection; no statement in the plugin ever assigns it, so it reads as
`undefined` (falsy, modelled `false`) throughout. `cycleSwitching` is
`McKathlin.DayNightCycle._switching`, the flag `changeTimeTo` sets and
clears (`this` there is `McKathlin.DayNightCycle`). -/
structure GameState where
  switches : Int → Bool
  gameVariables : Int → Int
  totalMinutes : Int
  dayNightSwitching : Bool
  cycleSwitching : Bool

/-- Fresh game state: switches off, variables zero, clock at zero, both
flags at their initial falsy values. -/
def initialGameState : GameState where
  switches := fun _ => false
  gameVariables := fun _ => 0
  totalMinutes := 0
  dayNightSwitching := false
  cycleSwitching := false

/-- The reserved-switch policy-violation message thrown by the patched
`Game_Switches.prototype.setValue`. -/
def reservedSwitchMessage (switchId : Int) : String :=
  "Switch " ++ toString switchId ++
    " is reserved for use by McKathlin.DayNight plugin, and should not be set outside of it."

namespace Game_Switches

/-- The patched `Game_Switches.prototype.setValue(switchId, value)`:
while the `_switching` flag consulted by the protection is falsy, a
positive switch ID equal to either reserved ID throws; otherwise the
original setter runs. (The reserved IDs are read as
`McKathlin.Param.DaytimeSwitchID` / `NightSwitchID`; they are modelled
as the configured daytime/night switch IDs.) -/
def setValue (param : Param) (st : GameState) (switchId : Int) (value : Bool) :
    Except String GameState :=
  if 0 < switchId ∧ st.dayNightSwitching = false then
    if switchId = param.daytimeSwitchID ∨ switchId = param.nightSwitchID then
      .error (reservedSwitchMessage switchId)
    else
      .ok { st with switches := fun i => if i = switchId then value else st.switches i }
  else
    .ok { st with switches := fun i => if i = switchId then value else st.switches i }

end Game_Switches

/-- `$gameVariables.setValue(variableId, value)` (unpatched engine
setter, always succeeds). -/
def setVariableValue (st : GameState) (variableId : Int) (value : Int) : GameState :=
  { st with gameVariables := fun i => if i = variableId then value else st.gameVariables i }

namespace DayNightCycle

/-- `McKathlin.DayNightCycle.updateTime()`: write the daytime and night
switches through the protected setter, then the days/hour/minute
variables. An exception from a switch write propagates. -/
def updateTime (param : Param) (st : GameState) : Except String GameState :=
  let isDay := TimeSpan.isDaytime param ⟨st.totalMinutes⟩
  match Game_Switches.setValue param st param.daytimeSwitchID isDay with
  | .error e => .error e
  | .ok st1 =>
    match Game_Switches.setValue param st1 param.nightSwitchID (!isDay) with
    | .error e => .error e
    | .ok st2 =>
      let t : TimeSpan := ⟨st2.totalMinutes⟩
      .ok (setVariableValue
            (setVariableValue
              (setVariableValue st2 param.daysPassedVariable t.getDays)
              param.currentHourVariable t.getHours)
            param.currentMinuteVariable t.getMinutes)

/-- `McKathlin.DayNightCycle.changeTimeTo(minutes)`: set
`McKathlin.DayNightCycle._switching`, store the new minute count in
`$gameSystem.totalMinutes`, run `updateTime()`, clear the flag, then
notify the map. A thrown exception propagates before the flag is
cleared. The map notification is an external collaborator and is not
modelled. -/
def changeTimeTo (param : Param) (st : GameState) (minutes : Int) :
    Except String GameState :=
  let st1 := { st with cycleSwitching := true }
  let st2 := { st1 with totalMinutes := minutes }
  match updateTime param st2 with
  | .error e => .error e
  | .ok st3 => .ok { st3 with cycleSwitching := false }

/-- The time-value computation of `McKathlin.DayNightCycle.reset()`:
`setTotalMinutes(0)` then
`setForwardTo(new McKathlin.TimeSpan(0, 0, NewGameStartTimeAsMinutes))`. -/
def reset (param : Param) : TimeSpan :=
  TimeSpan.setForwardTo ⟨0⟩ (TimeSpan.init 0 0 param.newGameStartTimeAsMinutes)

end DayNightCycle

/-- The plugin's default parameter values, as listed in the `@param`
headers: dawn 6:00 AM, day 6:00 AM, dusk 6:00 PM, night 8:00 PM, new
game 8:00 AM, 30 minutes per tone phase, four dawn and four dusk
phases; derived ends `start + 4 * 30`. The switch and variable IDs are
operator-assigned (0 disables a switch); concrete nonzero IDs are used
so that the reserved-switch protection is exercised. -/
def defaultParam : Param where
  dawnStartTimeAsMinutes := 360
  dawnEndTimeAsMinutes := 480
  duskStartTimeAsMinutes := 1080
  duskEndTimeAsMinutes := 1200
  dayStartTimeAsMinutes := 360
  nightStartTimeAsMinutes := 1200
  newGameStartTimeAsMinutes := 480
  minutesPerTonePhase := 30
  dawnTonePhases :=
    [[-68, -68, -14, 41], [-68, -68, -27, 14], [-54, -54, -27, 0], [-27, -27, -14, 0]]
  duskTonePhases :=
    [[27, -14, -14, 0], [54, -27, -27, 0], [41, -41, -27, 14], [-14, -54, -14, 41]]
  daylightTone := [0, 0, 0, 0]
  nightTone := [-68, -68, 0, 68]
  defaultTone := [0, 0, 0, 0]
  outdoorLightingKeyword := "outside"
  simpleLightingPresets := fun k =>
    if k = "bright" then some ⟨[0, 0, 0, 0]⟩
    else if k = "fire" then some ⟨[-16, -70, -100, 100]⟩
    else if k = "blue" then some ⟨[-68, -68, 0, 68]⟩
    else if k = "dark" then some ⟨[-68, -68, -68, 0]⟩
    else none
  daytimeSwitchID := 1
  nightSwitchID := 2
  daysPassedVariable := 3
  currentHourVariable := 4
  currentMinuteVariable := 5

/-! ## Helper lemmas -/

theorem jsMod_eq_emod {a b : Int} (ha : 0 ≤ a) (hb : 0 ≤ b) :
    jsMod a b = a % b :=
  Int.tmod_eq_emod ha hb

theorem jsFloorDiv_eq_ediv (a : Int) {b : Int} (hb : 0 ≤ b) :
    jsFloorDiv a b = a / b :=
  Int.fdiv_eq_ediv a hb

/-! ## Claim theorems -/

/-- **C5.** For every TimeSpan constructed from a minute count `m ≥ 0`,
`getHours()*60 + getMinutes() == getMinutesOfDay()` and
`getDays()*1440 + getMinutesOfDay() == getTotalMinutes()`. -/
theorem timeSpan_field_decomposition (m : Int) (hm : 0 ≤ m) :
    (TimeSpan.init 0 0 m).getHours * 60 + (TimeSpan.init 0 0 m).getMinutes =
      (TimeSpan.init 0 0 m).getMinutesOfDay ∧
    (TimeSpan.init 0 0 m).getDays * 1440 + (TimeSpan.init 0 0 m).getMinutesOfDay =
      (TimeSpan.init 0 0 m).getTotalMinutes := by
  have hinit : TimeSpan.init 0 0 m = ⟨m⟩ := by
    simp [TimeSpan.init]
  rw [hinit]
  simp only [TimeSpan.getHours, TimeSpan.getMinutes, TimeSpan.getMinutesOfDay,
    TimeSpan.getDays, TimeSpan.getTotalMinutes, DayNight.MINUTES_PER_HOUR,
    DayNight.MINUTES_PER_DAY, DayNight.HOURS_PER_DAY]
  have e1 : jsFloorDiv m 60 = m / 60 := jsFloorDiv_eq_ediv m (by norm_num)
  have e2 : jsMod m 60 = m % 60 := jsMod_eq_emod hm (by norm_num)
  have e3 : jsMod m (60 * 24) = m % 1440 := by
    rw [jsMod_eq_emod hm (by norm_num)]; norm_num
  have e4 : jsFloorDiv m (60 * 24) = m / 1440 := by
    rw [jsFloorDiv_eq_ediv m (by norm_num)]; norm_num
  have e5 : jsMod (m / 60) 24 = m / 60 % 24 :=
    jsMod_eq_emod (Int.ediv_nonneg hm (by norm_num)) (by norm_num)
  rw [e1, e2, e3, e4, e5]
  omega

theorem timeSpan_field_decomposition_witness :
    0 ≤ (1575 : Int) ∧
    ((TimeSpan.init 0 0 1575).getHours * 60 + (TimeSpan.init 0 0 1575).getMinutes =
        (TimeSpan.init 0 0 1575).getMinutesOfDay ∧
      (TimeSpan.init 0 0 1575).getDays * 1440 + (TimeSpan.init 0 0 1575).getMinutesOfDay =
        (TimeSpan.init 0 0 1575).getTotalMinutes) :=
  ⟨by decide, timeSpan_field_decomposition 1575 (by decide)⟩

/-- **C6.** `isDaytime()` is true iff the minute of day lies in the
half-open interval `[dayStart, nightStart)`; with dayStart 6:00 (360)
and nightStart 20:00 (1200) it is true at 6:00 and 19:59 and false at
20:00 and 5:59. -/
theorem isDaytime_halfopen_interval :
    (∀ (param : Param) (t : TimeSpan),
      TimeSpan.isDaytime param t = true ↔
        param.dayStartTimeAsMinutes ≤ t.getMinutesOfDay ∧
          t.getMinutesOfDay < param.nightStartTimeAsMinutes) ∧
    TimeSpan.isDaytime defaultParam ⟨360⟩ = true ∧
    TimeSpan.isDaytime defaultParam ⟨1199⟩ = true ∧
    TimeSpan.isDaytime defaultParam ⟨1200⟩ = false ∧
    TimeSpan.isDaytime defaultParam ⟨359⟩ = false := by
  refine ⟨fun param t => ?_, by decide, by decide, by decide, by decide⟩
  simp [TimeSpan.isDaytime]

/-- **C3.** For a nonnegative instant and a nonnegative target
time-of-day, `setForwardTo` adds the minimal nonnegative delta `d` with
`0 ≤ d < 1440` after which the minute of day equals the target's minute
of day, so the instant never moves backward; from day 0 at 22:00 the
target 8:00 gives day 1 at 8:00, and the target 23:00 gives day 0 at
23:00. -/
theorem setForwardTo_minimal_nonneg_delta (t target : TimeSpan)
    (ht : 0 ≤ t.totalMinutes) (htarget : 0 ≤ target.totalMinutes) :
    t.totalMinutes ≤ (t.setForwardTo target).totalMinutes ∧
    (t.setForwardTo target).totalMinutes - t.totalMinutes < 1440 ∧
    (t.setForwardTo target).getMinutesOfDay = target.getMinutesOfDay ∧
    (∀ d : Int, 0 ≤ d →
      (TimeSpan.mk (t.totalMinutes + d)).getMinutesOfDay = target.getMinutesOfDay →
      (t.setForwardTo target).totalMinutes - t.totalMinutes ≤ d) ∧
    TimeSpan.setForwardTo ⟨1320⟩ ⟨480⟩ = ⟨1920⟩ ∧
    TimeSpan.setForwardTo ⟨1320⟩ ⟨1380⟩ = ⟨1380⟩ ∧
    (TimeSpan.mk 1920).getDays = 1 ∧ (TimeSpan.mk 1920).getMinutesOfDay = 480 := by
  have hMPD : DayNight.MINUTES_PER_DAY = 1440 := by
    simp [DayNight.MINUTES_PER_DAY, DayNight.MINUTES_PER_HOUR, DayNight.HOURS_PER_DAY]
  have hmodt : (⟨t.totalMinutes⟩ : TimeSpan).getMinutesOfDay = t.totalMinutes % 1440 := by
    simp only [TimeSpan.getMinutesOfDay, hMPD]
    exact jsMod_eq_emod ht (by norm_num)
  have hmodtarget : target.getMinutesOfDay = target.totalMinutes % 1440 := by
    simp only [TimeSpan.getMinutesOfDay, hMPD]
    exact jsMod_eq_emod htarget (by norm_num)
  have hfwd : (t.setForwardTo target).totalMinutes =
      t.totalMinutes +
        (if target.totalMinutes % 1440 - t.totalMinutes % 1440 < 0 then
          target.totalMinutes % 1440 - t.totalMinutes % 1440 + 1440
        else target.totalMinutes % 1440 - t.totalMinutes % 1440) := by
    simp only [TimeSpan.setForwardTo, TimeSpan.getMinutesOfDay, hMPD,
      jsMod_eq_emod ht (by norm_num : (0:Int) ≤ 1440),
      jsMod_eq_emod htarget (by norm_num : (0:Int) ≤ 1440)]
  refine ⟨?_, ?_, ?_, ?_, by decide, by decide, by decide, by decide⟩
  · rw [hfwd]; omega
  · rw [hfwd]; omega
  · have hres : 0 ≤ (t.setForwardTo target).totalMinutes := by rw [hfwd]; omega
    have : (t.setForwardTo target).getMinutesOfDay =
        (t.setForwardTo target).totalMinutes % 1440 := by
      simp only [TimeSpan.getMinutesOfDay, hMPD]
      exact jsMod_eq_emod hres (by norm_num)
    rw [this, hmodtarget, hfwd]
    omega
  · intro d hd hmod
    have hsum : 0 ≤ t.totalMinutes + d := by omega
    have : (TimeSpan.mk (t.totalMinutes + d)).getMinutesOfDay =
        (t.totalMinutes + d) % 1440 := by
      simp only [TimeSpan.getMinutesOfDay, hMPD]
      exact jsMod_eq_emod hsum (by norm_num)
    rw [this, hmodtarget] at hmod
    rw [hfwd]
    omega

theorem setForwardTo_minimal_nonneg_delta_witness :
    0 ≤ (TimeSpan.mk 1320).totalMinutes ∧
    (TimeSpan.setForwardTo ⟨1320⟩ ⟨480⟩).getMinutesOfDay =
      (TimeSpan.mk 480).getMinutesOfDay :=
  ⟨by decide, (setForwardTo_minimal_nonneg_delta ⟨1320⟩ ⟨480⟩ (by decide) (by decide)).2.2.1⟩

/-- **C10.** `parseTimeOfDay` performs no range validation on the hour or
minute fields: `"25:75"` is accepted and yields total minutes
`60*25 + 75 = 1575`, which exceeds 1439 and has a nonzero day
component. -/
theorem parseTimeOfDay_no_range_validation :
    DayNight.parseTimeOfDay "25:75" = .ok (TimeSpan.init 0 25 75) ∧
    (TimeSpan.init 0 25 75).getTotalMinutes = 60 * 25 + 75 ∧
    1439 < (TimeSpan.init 0 25 75).getTotalMinutes ∧
    (TimeSpan.init 0 25 75).getDays ≠ 0 :=
  ⟨rfl, by decide, by decide, by decide⟩

/-- **C1.** With a positive phase width and ordered boundaries,
`getOutsideTone` selects: the night tone before dawn start; the dawn
phase sequence element at index `floor((t - dawnStart)/minutesPerPhase)`
on `[dawnStart, dawnEnd)`; the daylight tone on `[dawnEnd, duskStart)`;
the dusk phase sequence element at the analogous index on
`[duskStart, duskEnd)`; and the night tone from dusk end onward. -/
theorem getOutsideTone_phase_selection (param : Param) (t : TimeSpan)
    (hmpp : 0 < param.minutesPerTonePhase)
    (h1 : param.dawnStartTimeAsMinutes ≤ param.dawnEndTimeAsMinutes)
    (h2 : param.dawnEndTimeAsMinutes ≤ param.duskStartTimeAsMinutes)
    (h3 : param.duskStartTimeAsMinutes ≤ param.duskEndTimeAsMinutes) :
    (t.getMinutesOfDay < param.dawnStartTimeAsMinutes →
      DayNightCycle.getOutsideTone param t = some param.nightTone) ∧
    (param.dawnStartTimeAsMinutes ≤ t.getMinutesOfDay ∧
        t.getMinutesOfDay < param.dawnEndTimeAsMinutes →
      DayNightCycle.getOutsideTone param t =
        jsArrayGet param.dawnTonePhases
          (jsFloorDiv (t.getMinutesOfDay - param.dawnStartTimeAsMinutes)
            param.minutesPerTonePhase)) ∧
    (param.dawnEndTimeAsMinutes ≤ t.getMinutesOfDay ∧
        t.getMinutesOfDay < param.duskStartTimeAsMinutes →
      DayNightCycle.getOutsideTone param t = some param.daylightTone) ∧
    (param.duskStartTimeAsMinutes ≤ t.getMinutesOfDay ∧
        t.getMinutesOfDay < param.duskEndTimeAsMinutes →
      DayNightCycle.getOutsideTone param t =
        jsArrayGet param.duskTonePhases
          (jsFloorDiv (t.getMinutesOfDay - param.duskStartTimeAsMinutes)
            param.minutesPerTonePhase)) ∧
    (param.duskEndTimeAsMinutes ≤ t.getMinutesOfDay →
      DayNightCycle.getOutsideTone param t = some param.nightTone) := by
  refine ⟨?_, ?_, ?_, ?_, ?_⟩
  · intro h
    simp only [DayNightCycle.getOutsideTone]
    split_ifs <;> first | rfl | omega
  · intro h
    obtain ⟨ha, hb⟩ := h
    simp only [DayNightCycle.getOutsideTone]
    split_ifs <;> first | rfl | omega
  · intro h
    obtain ⟨ha, hb⟩ := h
    simp only [DayNightCycle.getOutsideTone]
    split_ifs <;> first | rfl | omega
  · intro h
    obtain ⟨ha, hb⟩ := h
    simp only [DayNightCycle.getOutsideTone]
    split_ifs <;> first | rfl | omega
  · intro h
    simp only [DayNightCycle.getOutsideTone]
    split_ifs <;> first | rfl | omega

theorem getOutsideTone_phase_selection_witness :
    0 < defaultParam.minutesPerTonePhase ∧
    DayNightCycle.getOutsideTone defaultParam ⟨400⟩ =
      jsArrayGet defaultParam.dawnTonePhases
        (jsFloorDiv ((TimeSpan.mk 400).getMinutesOfDay - defaultParam.dawnStartTimeAsMinutes)
          defaultParam.minutesPerTonePhase) :=
  ⟨by decide,
    (getOutsideTone_phase_selection defaultParam ⟨400⟩ (by decide) (by decide)
      (by decide) (by decide)).2.1 ⟨by decide, by decide⟩⟩

/-- **C4.** `getToneByKeyword` is total: an empty keyword yields the
default tone, and a keyword that is neither the outdoor keyword nor a
preset-table entry falls back to the default tone. -/
theorem getToneByKeyword_defaults (param : Param) (t : TimeSpan) (keyword : String) :
    (keyword = "" →
      DayNightCycle.getToneByKeyword param t keyword = param.defaultTone) ∧
    (jsToLowerCase keyword ≠ param.outdoorLightingKeyword →
      param.simpleLightingPresets (jsToLowerCase keyword) = none →
      DayNightCycle.getToneByKeyword param t keyword = param.defaultTone) := by
  constructor
  · intro h
    subst h
    rfl
  · intro hout hnone
    by_cases hk : keyword = ""
    · subst hk
      rfl
    · simp [DayNightCycle.getToneByKeyword, hk, hout, hnone]

theorem getToneByKeyword_defaults_witness :
    DayNightCycle.getToneByKeyword defaultParam ⟨0⟩ "" = defaultParam.defaultTone ∧
    DayNightCycle.getToneByKeyword defaultParam ⟨0⟩ "NoSuchPreset" = defaultParam.defaultTone :=
  ⟨(getToneByKeyword_defaults defaultParam ⟨0⟩ "").1 rfl,
    (getToneByKeyword_defaults defaultParam ⟨0⟩ "NoSuchPreset").2 (by decide) (by decide)⟩

/-- **C8.** With the configured new-game start time `"8:00 AM"`,
`reset()` leaves the canonical instant at `getTotalMinutes() == 480` and
`getDays() == 0`: it zeroes the instant and advances it forward to the
configured start time of day. -/
theorem reset_new_game_start (param : Param) (t0 : TimeSpan)
    (hparse : DayNight.parseTimeOfDay "8:00 AM" = .ok t0)
    (hcfg : param.newGameStartTimeAsMinutes = t0.totalMinutes) :
    (DayNightCycle.reset param).getTotalMinutes = 480 ∧
    (DayNightCycle.reset param).getDays = 0 := by
  have h8 : DayNight.parseTimeOfDay "8:00 AM" = Except.ok ⟨480⟩ := rfl
  rw [h8] at hparse
  injection hparse with ht0
  rw [← ht0] at hcfg
  unfold DayNightCycle.reset
  rw [hcfg]
  exact ⟨by decide, by decide⟩

theorem reset_new_game_start_witness :
    (DayNightCycle.reset defaultParam).getTotalMinutes = 480 ∧
    (DayNightCycle.reset defaultParam).getDays = 0 :=
  reset_new_game_start defaultParam ⟨480⟩ rfl rfl

/-- **C2** (code evaluated at the failing input). With daytime switch 1
and night switch 2 configured and the protection's guard flag
(`McKathlin.DayNight._switching`) at its permanent falsy value: an
external write to a reserved switch is rejected (the claim's first
half), but `changeTimeTo` — the controller's own sync step — is rejected
too, because the flag it sets (`McKathlin.DayNightCycle._switching`) is
not the one the protection consults, contradicting the claim's second
half. -/
theorem changeTimeTo_sync_write_rejected :
    Game_Switches.setValue defaultParam initialGameState 1 true =
      .error (reservedSwitchMessage 1) ∧
    DayNightCycle.changeTimeTo defaultParam initialGameState 480 =
      .error (reservedSwitchMessage 1) :=
  ⟨rfl, rfl⟩

theorem findTimeMatch_isSome_iff (cs : List Char) :
    (DayNight.findTimeMatch cs).isSome = true ↔
      ∃ i, (DayNight.timeCoreAt (cs.drop i)).isSome = true := by
  induction cs with
  | nil =>
    simp [DayNight.findTimeMatch, DayNight.timeCoreAt]
  | cons c rest ih =>
    unfold DayNight.findTimeMatch
    cases h : DayNight.timeCoreAt (c :: rest) with
    | some v =>
      simp only [Option.isSome_some, true_iff]
      exact ⟨0, by simp [h]⟩
    | none =>
      rw [ih]
      constructor
      · rintro ⟨j, hj⟩
        exact ⟨j + 1, hj⟩
      · rintro ⟨i, hi⟩
        cases i with
        | zero => simp [h] at hi
        | succ j => exact ⟨j, hi⟩

theorem findToneMatch_isSome_iff (cs : List Char) :
    (DayNight.findToneMatch cs).isSome = true ↔
      ∃ i, (DayNight.toneCoreAt (cs.drop i)).isSome = true := by
  induction cs with
  | nil =>
    constructor
    · intro h
      exact absurd h (by decide)
    · rintro ⟨i, hi⟩
      rw [List.drop_nil] at hi
      exact absurd hi (by decide)
  | cons c rest ih =>
    unfold DayNight.findToneMatch
    cases h : DayNight.toneCoreAt (c :: rest) with
    | some v =>
      simp only [Option.isSome_some, true_iff]
      exact ⟨0, by simp [h]⟩
    | none =>
      rw [ih]
      constructor
      · rintro ⟨j, hj⟩
        exact ⟨j + 1, hj⟩
      · rintro ⟨i, hi⟩
        cases i with
        | zero => simp [h] at hi
        | succ j => exact ⟨j, hi⟩

theorem toneCoreAt_fourth_nonneg {cs : List Char} {r g b gy : Int}
    (h : DayNight.toneCoreAt cs = some (r, g, b, gy)) : 0 ≤ gy := by
  unfold DayNight.toneCoreAt at h
  repeat' split at h
  all_goals try exact Option.noConfusion h
  simp only [Option.some.injEq, Prod.mk.injEq] at h
  omega

theorem findToneMatch_fourth_nonneg {cs : List Char} {r g b gy : Int}
    (h : DayNight.findToneMatch cs = some (r, g, b, gy)) : 0 ≤ gy := by
  induction cs with
  | nil => simp [DayNight.findToneMatch] at h
  | cons c rest ih =>
    unfold DayNight.findToneMatch at h
    cases hc : DayNight.toneCoreAt (c :: rest) with
    | some v =>
      rw [hc] at h
      injection h with hv
      rw [hv] at hc
      exact toneCoreAt_fourth_nonneg hc
    | none =>
      rw [hc] at h
      exact ih h

/-- **C7.** `parseTimeOfDay` maps 12 AM to hour 0, 12 PM to hour 12 and
adds 12 to other PM hours; it fails exactly when the input lacks an
`H:MM`/`HH:MM` pattern (marker optional, case-insensitive); and the four
example inputs parse to minute-of-day 0, 720, 425 and 1145, each with
day component 0. -/
theorem parseTimeOfDay_spec :
    (∀ s : String,
      ((DayNight.parseTimeOfDay s).isOk = true ↔ DayNight.hasTimeOfDayPattern s)) ∧
    DayNight.applyMeridiem 12 (some 'a') = 0 ∧
    DayNight.applyMeridiem 12 (some 'p') = 12 ∧
    (∀ h : Int, h ≠ 12 → DayNight.applyMeridiem h (some 'p') = h + 12) ∧
    (∀ h : Int, h ≠ 12 → DayNight.applyMeridiem h (some 'a') = h) ∧
    DayNight.parseTimeOfDay "12:00 AM" = .ok ⟨0⟩ ∧
    DayNight.parseTimeOfDay "12:00 PM" = .ok ⟨720⟩ ∧
    DayNight.parseTimeOfDay "7:05 AM" = .ok ⟨425⟩ ∧
    DayNight.parseTimeOfDay "7:05 PM" = .ok ⟨1145⟩ ∧
    (TimeSpan.mk 0).getDays = 0 ∧ (TimeSpan.mk 720).getDays = 0 ∧
    (TimeSpan.mk 425).getDays = 0 ∧ (TimeSpan.mk 1145).getDays = 0 := by
  refine ⟨fun s => ?_, by decide, by decide, fun h hne => ?_, fun h hne => ?_,
    rfl, rfl, rfl, rfl, by decide, by decide, by decide, by decide⟩
  · unfold DayNight.parseTimeOfDay
    rw [DayNight.hasTimeOfDayPattern, ← findTimeMatch_isSome_iff]
    cases h : DayNight.findTimeMatch s.data with
    | none => simp [Except.isOk, Except.toBool, h]
    | some v => simp [Except.isOk, Except.toBool, h]
  · simp [DayNight.applyMeridiem, hne]
  · simp [DayNight.applyMeridiem, hne]

theorem parseTimeOfDay_spec_witness :
    (7 : Int) ≠ 12 ∧ DayNight.applyMeridiem 7 (some 'p') = 7 + 12 :=
  ⟨by decide, parseTimeOfDay_spec.2.2.2.1 7 (by decide)⟩

/-- **C9** (counterexample). The tone pattern's fourth integer is a bare
digit sequence, so a sign immediately before the fourth integer makes
the match fail: `parseTone` rejects `"(1, 2, 3, -4)"`, against the
claim that it does not reject a sign on the fourth integer. -/
theorem parseTone_signed_fourth_rejected :
    DayNight.parseTone "(1, 2, 3, -4)" =
      .error ("Tone parse error: (1, 2, 3, -4)") := rfl

/-- **C9** (amended). `parseTone` matches four comma/space-separated
integers, the first three optionally signed, but the fourth must be a
bare digit sequence: every accepted parse has a nonnegative fourth
component (and a signed fourth integer, as in `"(1, 2, 3, -4)"`, is
rejected); it fails exactly when the four-integer pattern does not
match; and `parseTone("(-68, -68, -14, 41)")` returns
`[-68, -68, -14, 41]`. -/
theorem parseTone_spec :
    (∀ s : String, ((DayNight.parseTone s).isOk = true ↔ DayNight.hasTonePattern s)) ∧
    (∀ (s : String) (r g b gy : Int),
      DayNight.parseTone s = .ok [r, g, b, gy] → 0 ≤ gy) ∧
    DayNight.parseTone "(1, 2, 3, -4)" = .error ("Tone parse error: (1, 2, 3, -4)") ∧
    DayNight.parseTone "(-68, -68, -14, 41)" = .ok [-68, -68, -14, 41] := by
  refine ⟨fun s => ?_, fun s r g b gy h => ?_, rfl, rfl⟩
  · unfold DayNight.parseTone
    rw [DayNight.hasTonePattern, ← findToneMatch_isSome_iff]
    cases h : DayNight.findToneMatch s.data with
    | none => simp [Except.isOk, Except.toBool, h]
    | some v => simp [Except.isOk, Except.toBool, h]
  · unfold DayNight.parseTone at h
    cases hm : DayNight.findToneMatch s.data with
    | none => rw [hm] at h; simp at h
    | some v =>
      rw [hm] at h
      obtain ⟨rv, gv, bv, gyv⟩ := v
      injection h with hlist
      have hgy : gyv = gy := by
        have h4 := congrArg (fun l => l.getD 3 0) hlist
        simpa using h4
      subst hgy
      exact findToneMatch_fourth_nonneg hm

theorem parseTone_spec_witness :
    DayNight.parseTone "(-68, -68, -14, 41)" = .ok [-68, -68, -14, 41] ∧
    (0 : Int) ≤ 41 :=
  ⟨rfl, parseTone_spec.2.1 "(-68, -68, -14, 41)" (-68) (-68) (-14) 41 rfl⟩

end McKathlin
